import Mathlib

/-!
Shallow embedding of `src/retrain.py`, a single-node retrain orchestrator.

The filesystem state visible to the program is modelled by `FS`:
the dataset file (`data/add.csv`), the marker/metadata file
(`data/last_retrain.txt`), a temporary file possibly left by the atomic
metadata write, the raw model artifact (`model.pkl`), the version store
(`models/`, newest first), the latest-model pointer, and the lock token
(`.retrain.lock`).

The behaviour of external collaborators and of fallible OS calls inside one
cycle is an `Env`: whether the checksum read fails, whether reading an
existing marker file fails, the outcome of the training subprocess, the
timestamp used for the version name, the outcome of the latest-pointer
update, and at which step (if any) each metadata write fails.

Each operation additionally records a trace of externally visible effects
(`Event`): launching the training subprocess, saving a version into the
store, and calling the metadata write.
-/

namespace Retrain

/-- Effects visible outside one cycle: subprocess launch, version-store save,
and a call to the metadata write (with the value passed to it). -/
inductive Event where
  | launchTraining : Event
  | saveVersion : String → Event
  | writeMeta : String → Event
deriving Repr, DecidableEq

/-- Outcome of `run_training_script`: the launch itself can fail
(`TRAIN_SCRIPT` missing raises `FileNotFoundError`, or `subprocess.run`
raises), the child can exceed the timeout (`subprocess.TimeoutExpired`), or
it completes with a return code, captured output, and whatever content it
wrote (or did not write) to `model.pkl`. -/
inductive TrainResult where
  | launchFail : TrainResult
  | timeout : TrainResult
  | completed : Int → String → String → Option (List Nat) → TrainResult
deriving Repr, DecidableEq

/-- Step at which a `write_meta_atomic` call fails: `success` means no
failure; `atMkstemp` means `tempfile.mkstemp` raised before any file
existed; `midWrite k` means the body write raised after `k` characters
reached the temporary file; `atReplace` means `os.replace` raised with the
fully written temporary file present. -/
inductive WFail where
  | success : WFail
  | atMkstemp : WFail
  | midWrite : Nat → WFail
  | atReplace : WFail
deriving Repr, DecidableEq

/-- Outcome of the latest-pointer update inside `save_model_version`:
it succeeds, the whole `try` block fails before the old pointer is removed
(pointer untouched), or it fails after removal (pointer gone). Either
failure is only logged; the version copy is unaffected. -/
inductive LatestOutcome where
  | success : LatestOutcome
  | beforeRemove : LatestOutcome
  | afterRemove : LatestOutcome
deriving Repr, DecidableEq

/-- The slice of the filesystem read and written by `retrain.py`. -/
structure FS where
  dataset : Option (List Nat)
  meta : Option String
  tmpFile : Option String
  artifact : Option (List Nat)
  versions : List (String × List Nat)
  latest : Option String
  lock : Bool
deriving Repr, DecidableEq

/-- The metadata-file slice of the state seen by `write_meta_atomic`:
the marker file content and the temporary file (if one exists). -/
structure MetaFS where
  meta : Option String
  tmp : Option String
deriving Repr, DecidableEq

/-- Environment of one cycle: outcomes of the fallible OS calls and of the
training collaborator. -/
structure Env where
  md5Fails : Bool
  metaReadFails : Bool
  training : TrainResult
  ts : String
  latestOutcome : LatestOutcome
  metaWriteFail : WFail
  metaRemoveFails : Bool
  forceWriteFail : WFail
deriving Repr

/-- Hex character for a nibble, as produced by `hexdigest()`. -/
def hexChar (n : Nat) : Char :=
  if n < 10 then Char.ofNat (48 + n) else Char.ofNat (87 + n)

/-- Modelled from the spec: `file_md5` reads the dataset in 8192-byte chunks
and feeds them to `hashlib.md5`, returning the hex digest. The hash itself
is a Python-stdlib collaborator; the spec states the digest choice is not
load-bearing ("any collision-resistant-enough checksum suffices"; the goal
is stability, same content ⇒ same digest). It is modelled as a
deterministic digest of the full byte content, rendered as the 32
hex characters `hexdigest` returns. -/
def file_md5 (content : List Nat) : String :=
  let h := content.foldl (fun a b => (a * 131 + b) % (2 ^ 128)) 5381
  String.mk ((List.range 32).map fun i => hexChar (h / 16 ^ i % 16))

/-- Characters removed by Python `str.strip()` with no arguments. -/
def pySpaceChars : List Char :=
  [' ', '\t', '\n', '\r', Char.ofNat 11, Char.ofNat 12]

/-- Python `str.isspace`-style test for the default `strip` character set. -/
def isPySpace (c : Char) : Bool := pySpaceChars.contains c

/-- Python `s.strip()`: drop leading and trailing whitespace. -/
def py_strip (s : String) : String :=
  String.mk (((s.data.dropWhile isPySpace).reverse.dropWhile isPySpace).reverse)

/-- The 16 characters a hex digest is made of: the images of the nibbles
under `hexChar`. -/
def hexDigits : List Char := (List.range 16).map hexChar

/-- A string of the fingerprint form: every character is a hex digit. -/
def isFingerprint (s : String) : Bool := s.data.all fun c => hexDigits.contains c

/-- `read_meta`: `None` when `META_PATH` does not exist, otherwise the
stripped text content. Reading an existing file can itself fail
(`read_text` raising), which `read_meta` does not catch. -/
def read_meta (fails : Bool) (meta : Option String) : Except Unit (Option String) :=
  match meta with
  | none => Except.ok none
  | some m => if fails then Except.error () else Except.ok (some (py_strip m))

/-- Body of `write_meta_atomic` up to (but not including) the `finally`
block: `mkstemp`, write the value to the temporary file, `os.replace` over
`META_PATH`. Each failure point leaves the state the raised call leaves. -/
def write_meta_body (fail : WFail) (md5 : String) (s : MetaFS) :
    Except Unit Unit × MetaFS :=
  match fail with
  | WFail.success => (Except.ok (), { meta := some md5, tmp := none })
  | WFail.atMkstemp => (Except.error (), s)
  | WFail.midWrite k =>
      (Except.error (), { meta := s.meta, tmp := some (String.mk (md5.data.take k)) })
  | WFail.atReplace => (Except.error (), { meta := s.meta, tmp := some md5 })

/-- The `finally` block of `write_meta_atomic`: if the temporary file still
exists, attempt to remove it. The removal itself can raise, and that
exception is swallowed (`except Exception: pass`), in which case the
temporary file remains; `removeFails` is the outcome of that attempt. -/
def meta_finally (removeFails : Bool) (s : MetaFS) : MetaFS :=
  match s.tmp with
  | some _ => if removeFails then s else { s with tmp := none }
  | none => s

/-- `write_meta_atomic`: run the body, then the `finally` cleanup (whose
removal attempt fails when `removeFails` is true). Returns the propagated
result together with the resulting metadata-file state. -/
def write_meta_atomic (fail : WFail) (removeFails : Bool) (md5 : String)
    (s : MetaFS) : Except Unit Unit × MetaFS :=
  let r := write_meta_body fail md5 s
  (r.1, meta_finally removeFails r.2)

/-- `acquire_lock`: `os.open(..., O_CREAT | O_EXCL)` creates the lock token
exactly when it does not already exist; `FileExistsError` yields `False`. -/
def acquire_lock (s : FS) : Bool × FS :=
  if s.lock then (false, s) else (true, { s with lock := true })

/-- `release_lock`: unlink the lock token if present (idempotent). -/
def release_lock (s : FS) : FS := { s with lock := false }

/-- `save_model_version`: fail if the raw artifact is absent, otherwise copy
it to `models/model_<ts>.pkl` and update the `latest_model.pkl` pointer
(pointer failure is only logged). Returns the version name and the updated
store. -/
def save_model_version (ts : String) (lo : LatestOutcome)
    (src : Option (List Nat)) (versions : List (String × List Nat))
    (latest : Option String) :
    Except Unit (String × List (String × List Nat) × Option String) :=
  match src with
  | none => Except.error ()
  | some a =>
      let name := "model_" ++ ts ++ ".pkl"
      let latest' :=
        match lo with
        | LatestOutcome.success => some name
        | LatestOutcome.beforeRemove => latest
        | LatestOutcome.afterRemove => none
      Except.ok (name, (name, a) :: versions, latest')

/-- `retrain_once`: one check-and-retrain cycle. Returns the value
`retrain_once` returns (`Except.error` when an exception escapes it), the
resulting filesystem state, and the trace of visible effects, following the
source: dataset existence check, checksum (guarded), `read_meta`
(unguarded), change comparison, training (guarded), return-code check,
version save (guarded), metadata write (guarded, failure non-fatal). -/
def retrain_once (env : Env) (s : FS) : Except Unit Bool × FS × List Event :=
  match s.dataset with
  | none => (Except.ok false, s, [])
  | some content =>
    if env.md5Fails then (Except.ok false, s, [])
    else
      let current_md5 := file_md5 content
      match read_meta env.metaReadFails s.meta with
      | Except.error _ => (Except.error (), s, [])
      | Except.ok last_md5 =>
        if some current_md5 = last_md5 then (Except.ok false, s, [])
        else
          match env.training with
          | TrainResult.launchFail => (Except.ok false, s, [])
          | TrainResult.timeout => (Except.ok false, s, [Event.launchTraining])
          | TrainResult.completed code _ _ art =>
            let s1 : FS :=
              { s with artifact := match art with | some a => some a | none => s.artifact }
            if code ≠ 0 then (Except.ok false, s1, [Event.launchTraining])
            else
              match save_model_version env.ts env.latestOutcome s1.artifact
                  s1.versions s1.latest with
              | Except.error _ => (Except.ok false, s1, [Event.launchTraining])
              | Except.ok (name, versions', latest') =>
                let s2 : FS := { s1 with versions := versions', latest := latest' }
                let w := write_meta_atomic env.metaWriteFail env.metaRemoveFails
                  current_md5 { meta := s2.meta, tmp := s2.tmpFile }
                let s3 : FS := { s2 with meta := w.2.meta, tmpFile := w.2.tmp }
                (Except.ok true, s3,
                  [Event.launchTraining, Event.saveVersion name,
                   Event.writeMeta current_md5])

/-- One iteration of `watch_loop` (without the sleep): attempt the lock; on
success run a cycle under try/finally releasing the lock; on failure log and
skip. -/
def watch_iteration (env : Env) (s : FS) : Except Unit Bool × FS × List Event :=
  let g := acquire_lock s
  if g.1 then
    let r := retrain_once env g.2
    (r.1, release_lock r.2.1, r.2.2)
  else
    (Except.ok false, s, [])

/-- The single-run branch of `main` with the `--once` flag as `force`:
attempt the lock (exit if held); under try/finally releasing the lock, in
forced mode first call `write_meta_atomic "__FORCE__"` (unguarded) and then
run the cycle. -/
def main_once (force : Bool) (env : Env) (s : FS) :
    Except Unit Bool × FS × List Event :=
  let g := acquire_lock s
  if g.1 then
    if force then
      let w := write_meta_atomic env.forceWriteFail env.metaRemoveFails
        "__FORCE__" { meta := g.2.meta, tmp := g.2.tmpFile }
      let s2 : FS := { g.2 with meta := w.2.meta, tmpFile := w.2.tmp }
      match w.1 with
      | Except.error _ =>
          (Except.error (), release_lock s2, [Event.writeMeta "__FORCE__"])
      | Except.ok _ =>
          let r := retrain_once env s2
          (r.1, release_lock r.2.1, Event.writeMeta "__FORCE__" :: r.2.2)
    else
      let r := retrain_once env g.2
      (r.1, release_lock r.2.1, r.2.2)
  else
    (Except.ok false, g.2, [])

/-- A trace satisfies the write-after-save ordering when no metadata write
occurs before the first version-store save. -/
def saveBeforeMeta : List Event → Bool
  | [] => true
  | Event.writeMeta _ :: _ => false
  | Event.saveVersion _ :: _ => true
  | Event.launchTraining :: rest => saveBeforeMeta rest

/-- Training outcomes classified as failures by the cycle controller:
launch failure, timeout, or a non-zero exit code. -/
def trainFails : TrainResult → Bool
  | TrainResult.launchFail => true
  | TrainResult.timeout => true
  | TrainResult.completed code _ _ _ => code ≠ 0

end Retrain

namespace Retrain

/-! ## Concrete fixtures used by witnesses and counterexamples -/

/-- Environment whose training launch fails (training script missing);
every other operation succeeds. -/
def envLaunchFail : Env :=
  ⟨false, false, TrainResult.launchFail, "20240101T000000Z",
    LatestOutcome.success, WFail.success, false, WFail.success⟩

/-- Environment in which training completes with exit code 0 and writes the
artifact `[9]`; every operation succeeds. -/
def envTrainsOk : Env :=
  ⟨false, false, TrainResult.completed 0 "" "" (some [9]), "20240101T000000Z",
    LatestOutcome.success, WFail.success, false, WFail.success⟩

/-- Environment like `envTrainsOk` but whose metadata write fails at the
`os.replace` step. -/
def envMetaWriteFails : Env :=
  ⟨false, false, TrainResult.completed 0 "" "" (some [9]), "20240101T000000Z",
    LatestOutcome.success, WFail.atReplace, false, WFail.success⟩

/-- Environment in which reading the existing marker file fails. -/
def envReadFail : Env :=
  ⟨false, true, TrainResult.launchFail, "20240101T000000Z",
    LatestOutcome.success, WFail.success, false, WFail.success⟩

/-- State with no dataset file and an existing marker. -/
def sNoData : FS := ⟨none, some "abc", none, none, [], none, false⟩

/-- State with a dataset and a marker that differs from its fingerprint. -/
def sWithMeta : FS := ⟨some [1, 2, 3], some "abc123", none, none, [], none, false⟩

/-- State with a dataset and no marker file. -/
def sNoMeta : FS := ⟨some [1, 2, 3], none, none, none, [], none, false⟩

/-- State whose marker equals the fingerprint of its dataset. -/
def sMetaMatch : FS :=
  ⟨some [1, 2, 3], some (file_md5 [1, 2, 3]), none, none, [], none, false⟩

/-! ## Helper lemmas -/

/-- Reading the marker when the read does not fail yields the stripped
stored content. -/
theorem read_meta_ok (m : Option String) :
    read_meta false m = Except.ok (m.map py_strip) := by
  cases m <;> simp [read_meta]

/-- Whenever `retrain_once` does not return `True`, no field of the
filesystem state other than the raw artifact changes. -/
theorem retrain_once_notrue_frame (env : Env) (s : FS)
    (h : (retrain_once env s).1 ≠ Except.ok true) :
    (retrain_once env s).2.1.meta = s.meta ∧
    (retrain_once env s).2.1.versions = s.versions ∧
    (retrain_once env s).2.1.latest = s.latest ∧
    (retrain_once env s).2.1.dataset = s.dataset ∧
    (retrain_once env s).2.1.lock = s.lock ∧
    (retrain_once env s).2.1.tmpFile = s.tmpFile := by
  revert h
  unfold retrain_once
  repeat' first | split | dsimp only
  all_goals intro h
  all_goals first
    | exact ⟨rfl, rfl, rfl, rfl, rfl, rfl⟩
    | exact absurd rfl h

/-- A hex digit is not one of the characters `str.strip()` removes. -/
theorem hex_not_space (c : Char) (h : hexDigits.contains c = true) :
    isPySpace c = false := by
  have h2 : c ∈ hexDigits := List.elem_iff.mp h
  rw [hexDigits] at h2
  rcases List.mem_map.mp h2 with ⟨n, hn, rfl⟩
  have hall : ∀ k ∈ List.range 16, isPySpace (hexChar k) = false := by decide
  exact hall n hn

/-- `dropWhile` is the identity on a list none of whose members satisfy the
predicate. -/
theorem dropWhile_no_head (l : List Char)
    (h : ∀ c ∈ l, isPySpace c = false) : l.dropWhile isPySpace = l := by
  cases l with
  | nil => rfl
  | cons a t => simp [List.dropWhile_cons, h a (List.mem_cons_self a t)]

/-- `str.strip()` leaves a fingerprint-form string unchanged. -/
theorem py_strip_fingerprint (s : String) (h : isFingerprint s = true) :
    py_strip s = s := by
  rcases s with ⟨l⟩
  have hall : ∀ c ∈ l, isPySpace c = false := by
    intro c hc
    exact hex_not_space c ((List.all_eq_true.mp h) c hc)
  show String.mk (((l.dropWhile isPySpace).reverse.dropWhile
    isPySpace).reverse) = String.mk l
  rw [dropWhile_no_head _ hall,
    dropWhile_no_head _ (fun c hc => hall c (List.mem_reverse.mp hc)),
    List.reverse_reverse]

/-- No digest collides with the forced-mode sentinel: a digest has 32
characters, the sentinel has 9. -/
theorem file_md5_ne_force (c : List Nat) : file_md5 c ≠ "__FORCE__" := by
  intro h
  have h2 : (file_md5 c).data.length = ("__FORCE__" : String).data.length := by
    rw [h]
  simp [file_md5] at h2

/-- Full characterization of a cycle that reaches the Recording state:
dataset readable, marker differs, training exits 0 with an artifact. The
cycle returns `True`, pushes one version, and hands the cycle fingerprint to
the metadata write (whatever that write's outcome). -/
theorem retrain_once_completed_run (env : Env) (s : FS) (c a : List Nat)
    (out err : String)
    (hds : s.dataset = some c) (h5 : env.md5Fails = false)
    (hr : env.metaReadFails = false)
    (hch : Option.map py_strip s.meta ≠ some (file_md5 c))
    (ht : env.training = TrainResult.completed 0 out err (some a)) :
    retrain_once env s =
      (Except.ok true,
       { s with
         artifact := some a,
         versions := ("model_" ++ env.ts ++ ".pkl", a) :: s.versions,
         latest :=
           match env.latestOutcome with
           | LatestOutcome.success => some ("model_" ++ env.ts ++ ".pkl")
           | LatestOutcome.beforeRemove => s.latest
           | LatestOutcome.afterRemove => none,
         meta := (write_meta_atomic env.metaWriteFail env.metaRemoveFails
           (file_md5 c) { meta := s.meta, tmp := s.tmpFile }).2.meta,
         tmpFile := (write_meta_atomic env.metaWriteFail env.metaRemoveFails
           (file_md5 c) { meta := s.meta, tmp := s.tmpFile }).2.tmp },
       [Event.launchTraining, Event.saveVersion ("model_" ++ env.ts ++ ".pkl"),
        Event.writeMeta (file_md5 c)]) := by
  have hch' : ¬(some (file_md5 c) = Option.map py_strip s.meta) :=
    fun hh => hch hh.symm
  unfold retrain_once
  rw [hds, h5, hr, read_meta_ok, ht]
  simp only [save_model_version]
  rw [if_neg hch']
  simp [if_neg hch']

/-- The forced single run, when the lock is free and the sentinel write
succeeds, first sets the marker to the sentinel and then runs the cycle
under the lock. -/
theorem main_once_forced_eq (env : Env) (s : FS)
    (hlock : s.lock = false) (hfw : env.forceWriteFail = WFail.success) :
    main_once true env s =
      (let r := retrain_once env
        { s with lock := true, meta := some "__FORCE__", tmpFile := none }
       (r.1, release_lock r.2.1, Event.writeMeta "__FORCE__" :: r.2.2)) := by
  unfold main_once acquire_lock
  rw [hlock, hfw]
  simp [write_meta_atomic, write_meta_body, meta_finally]

end Retrain

namespace Retrain

/-! ## Claim theorems -/

/-- C1 (counterexample): the claim "in every execution the retrain marker is
never written before the corresponding model version has been saved" is
false on the code: in the forced single run (`main` with `--once`, lock
free, dataset file absent) the metadata write is called with `"__FORCE__"`
and no version-store save precedes it in the trace. -/
theorem main_once_forced_meta_write_unpreceded_by_save :
    saveBeforeMeta (main_once true envLaunchFail sNoData).2.2 = false := by
  rfl

/-- C1 (amended): within `retrain_once` itself, every call to the metadata
write is preceded in the trace by a successful version-store save; only the
forced-mode sentinel write in `main` escapes the ordering. -/
theorem retrain_once_save_precedes_meta (env : Env) (s : FS) :
    saveBeforeMeta (retrain_once env s).2.2 = true := by
  unfold retrain_once
  repeat' first | split | dsimp only
  all_goals rfl

/-- C2: with the first attempt holding the lock (its `acquire_lock`
returned true and it has not released yet), a second concurrent cycle
attempt observes lock-acquisition failure, reports no retrain, performs no
training, and mutates nothing: its state is returned unchanged and its
trace is empty. -/
theorem concurrent_second_attempt_skips (env2 : Env) (s : FS)
    (h : s.lock = false) :
    (acquire_lock s).1 = true ∧
    watch_iteration env2 (acquire_lock s).2 =
      (Except.ok false, (acquire_lock s).2, []) := by
  simp [acquire_lock, watch_iteration, h]

/-- C2 (witness): instantiated at a lock-free state with a concrete
environment. -/
theorem concurrent_second_attempt_skips_witness :
    sNoData.lock = false ∧
    ((acquire_lock sNoData).1 = true ∧
      watch_iteration envLaunchFail (acquire_lock sNoData).2 =
        (Except.ok false, (acquire_lock sNoData).2, [])) :=
  ⟨rfl, concurrent_second_attempt_skips envLaunchFail sNoData rfl⟩

/-- C3 (counterexample): the claim's conjunct "the temporary file does not
remain on any exit path" is false on the code: the `finally` block swallows
a failing `os.remove` (`except Exception: pass`), so when `os.replace`
raises and the removal attempt then fails, the fully written temporary file
remains on disk. -/
theorem write_meta_atomic_remove_failure_leaves_tmp :
    (write_meta_atomic WFail.atReplace true "abc" ⟨some "old", none⟩).2.tmp =
      some "abc" := by
  rfl

/-- C3 (amended): `write_meta_atomic` writes to a temporary file in the
marker's directory and atomically replaces the final path, so the marker
holds the full new value exactly when the call succeeds and its previous
content (or absence) on every failure, never a prefix or other corruption;
the temporary file never remains after a successful call, and on failing
calls it is removed whenever the `finally` removal attempt itself succeeds
— a failing removal, swallowed by the code, can leave it behind. -/
theorem write_meta_atomic_crash_safe (fail : WFail) (rm : Bool)
    (md5 : String) (s : MetaFS) :
    (write_meta_atomic fail rm md5 s).2.meta =
      (match (write_meta_atomic fail rm md5 s).1 with
       | Except.ok _ => some md5
       | Except.error _ => s.meta) ∧
    ((write_meta_atomic fail rm md5 s).1 = Except.ok () →
      (write_meta_atomic fail rm md5 s).2.tmp = none) ∧
    (rm = false → (write_meta_atomic fail rm md5 s).2.tmp = none) := by
  rcases s with ⟨m, t⟩
  cases fail <;> cases t <;> cases rm <;>
    simp [write_meta_atomic, write_meta_body, meta_finally]

/-- C3 (witness): the amended guarantees at a concrete call failing
mid-write with a succeeding cleanup: the marker keeps its old content and
no temporary file remains. -/
theorem write_meta_atomic_crash_safe_witness :
    (write_meta_atomic (WFail.midWrite 1) false "abc"
      ⟨some "old", none⟩).2.meta = some "old" ∧
    (write_meta_atomic (WFail.midWrite 1) false "abc"
      ⟨some "old", none⟩).2.tmp = none :=
  ⟨(write_meta_atomic_crash_safe (WFail.midWrite 1) false "abc"
      ⟨some "old", none⟩).1,
   (write_meta_atomic_crash_safe (WFail.midWrite 1) false "abc"
      ⟨some "old", none⟩).2.2 rfl⟩

/-- C5: when the current dataset fingerprint equals the stored marker, the
cycle returns no-retrain with an unchanged state and an empty effect trace
(no subprocess launch, no save, no metadata write). -/
theorem noop_when_fingerprint_unchanged (env : Env) (s : FS) (c : List Nat)
    (m : String)
    (hds : s.dataset = some c) (hm : s.meta = some m)
    (h5 : env.md5Fails = false) (hr : env.metaReadFails = false)
    (heq : py_strip m = file_md5 c) :
    retrain_once env s = (Except.ok false, s, []) := by
  unfold retrain_once
  rw [hds, h5, hr, hm, read_meta_ok]
  simp [heq]

/-- C5 (witness): a state whose marker is exactly the fingerprint of its
dataset. -/
theorem noop_when_fingerprint_unchanged_witness :
    py_strip (file_md5 [1, 2, 3]) = file_md5 [1, 2, 3] ∧
    retrain_once envLaunchFail sMetaMatch = (Except.ok false, sMetaMatch, []) :=
  ⟨by decide,
   noop_when_fingerprint_unchanged envLaunchFail sMetaMatch [1, 2, 3]
     (file_md5 [1, 2, 3]) rfl rfl rfl rfl (by decide)⟩

/-- C8 (counterexample): the claim "no exception raised within a cycle ever
propagates out of retrain_once" is false on the code: `read_meta` is called
outside every try block, so with a marker file present whose read fails the
exception escapes `retrain_once` (and would terminate the watch loop). -/
theorem meta_read_error_escapes :
    (retrain_once envReadFail sWithMeta).1 = Except.error () := by
  rfl

/-- C8 (amended): every failure inside a cycle other than a failing read of
an existing marker file is caught at the cycle boundary and converted into
a no-retrain result; `retrain_once` returns normally whenever the marker
read does not fail. -/
theorem cycle_failures_converted_unless_meta_read (env : Env) (s : FS)
    (hr : env.metaReadFails = false) :
    ∃ b, (retrain_once env s).1 = Except.ok b := by
  unfold retrain_once
  rw [hr, read_meta_ok]
  repeat' first | split | dsimp only
  all_goals first | exact ⟨_, rfl⟩ | simp_all

/-- C8 (witness): the amended guarantee at a concrete failing cycle (training
launch failure). -/
theorem cycle_failures_converted_unless_meta_read_witness :
    envLaunchFail.metaReadFails = false ∧
    ∃ b, (retrain_once envLaunchFail sWithMeta).1 = Except.ok b :=
  ⟨rfl, cycle_failures_converted_unless_meta_read envLaunchFail sWithMeta rfl⟩

end Retrain

namespace Retrain

/-- A metadata write that fails at any step leaves the marker untouched. -/
theorem wma_meta_of_fail (fail : WFail) (rm : Bool) (md5 : String)
    (s : MetaFS) (hw : fail ≠ WFail.success) :
    (write_meta_atomic fail rm md5 s).2.meta = s.meta := by
  rcases s with ⟨m, t⟩
  cases fail <;> cases t <;> cases rm <;>
    first
      | exact absurd rfl hw
      | simp [write_meta_atomic, write_meta_body, meta_finally]

/-- C4: when the version save succeeds but the subsequent metadata write
fails, the cycle still returns "retrain occurred", the version store holds
exactly the one new version on top of the old ones (no rollback), and the
marker is left at its previous value. -/
theorem meta_write_failure_keeps_version (env : Env) (s : FS)
    (c a : List Nat) (out err : String)
    (hds : s.dataset = some c) (h5 : env.md5Fails = false)
    (hr : env.metaReadFails = false)
    (hch : Option.map py_strip s.meta ≠ some (file_md5 c))
    (ht : env.training = TrainResult.completed 0 out err (some a))
    (hw : env.metaWriteFail ≠ WFail.success) :
    (retrain_once env s).1 = Except.ok true ∧
    (retrain_once env s).2.1.versions =
      ("model_" ++ env.ts ++ ".pkl", a) :: s.versions ∧
    (retrain_once env s).2.1.meta = s.meta := by
  rw [retrain_once_completed_run env s c a out err hds h5 hr hch ht]
  exact ⟨rfl, rfl, wma_meta_of_fail env.metaWriteFail env.metaRemoveFails (file_md5 c) _ hw⟩

/-- C4 (witness): a concrete cycle whose metadata write fails at the
`os.replace` step. -/
theorem meta_write_failure_keeps_version_witness :
    envMetaWriteFails.metaWriteFail ≠ WFail.success ∧
    (retrain_once envMetaWriteFails sNoMeta).1 = Except.ok true ∧
    (retrain_once envMetaWriteFails sNoMeta).2.1.versions =
      ("model_" ++ envMetaWriteFails.ts ++ ".pkl", [9]) :: sNoMeta.versions ∧
    (retrain_once envMetaWriteFails sNoMeta).2.1.meta = sNoMeta.meta :=
  ⟨by decide,
   meta_write_failure_keeps_version envMetaWriteFails sNoMeta [1, 2, 3] [9]
     "" "" rfl rfl rfl (by simp [sNoMeta]) rfl (by decide)⟩

/-- C6: in a successful cycle whose metadata write succeeds, the marker
written equals the fingerprint of the dataset content read at the start of
that same cycle. -/
theorem marker_is_current_cycle_fingerprint (env : Env) (s : FS)
    (c a : List Nat) (out err : String)
    (hds : s.dataset = some c) (h5 : env.md5Fails = false)
    (hr : env.metaReadFails = false)
    (hch : Option.map py_strip s.meta ≠ some (file_md5 c))
    (ht : env.training = TrainResult.completed 0 out err (some a))
    (hw : env.metaWriteFail = WFail.success) :
    (retrain_once env s).1 = Except.ok true ∧
    (retrain_once env s).2.1.meta = some (file_md5 c) := by
  rw [retrain_once_completed_run env s c a out err hds h5 hr hch ht]
  refine ⟨rfl, ?_⟩
  rw [hw]
  rfl

/-- C6 (witness): a concrete fully successful cycle. -/
theorem marker_is_current_cycle_fingerprint_witness :
    envTrainsOk.metaWriteFail = WFail.success ∧
    (retrain_once envTrainsOk sNoMeta).1 = Except.ok true ∧
    (retrain_once envTrainsOk sNoMeta).2.1.meta = some (file_md5 [1, 2, 3]) :=
  ⟨rfl,
   marker_is_current_cycle_fingerprint envTrainsOk sNoMeta [1, 2, 3] [9]
     "" "" rfl rfl rfl (by simp [sNoMeta]) rfl rfl⟩

/-- C7: when training fails (launch failure, timeout, or non-zero exit
code), the cycle returns no-retrain and the marker, version store and
latest pointer are unchanged. -/
theorem training_failure_leaves_state (env : Env) (s : FS)
    (hf : trainFails env.training = true) (hr : env.metaReadFails = false) :
    (retrain_once env s).1 = Except.ok false ∧
    (retrain_once env s).2.1.meta = s.meta ∧
    (retrain_once env s).2.1.versions = s.versions ∧
    (retrain_once env s).2.1.latest = s.latest := by
  have h1 : (retrain_once env s).1 = Except.ok false := by
    unfold retrain_once
    rw [hr, read_meta_ok]
    repeat' first | split | dsimp only
    all_goals first | rfl | simp_all [trainFails]
  have h2 := retrain_once_notrue_frame env s (by rw [h1]; simp)
  exact ⟨h1, h2.1, h2.2.1, h2.2.2.1⟩

/-- C7 (witness): a concrete cycle whose training launch fails. -/
theorem training_failure_leaves_state_witness :
    trainFails envLaunchFail.training = true ∧
    (retrain_once envLaunchFail sWithMeta).1 = Except.ok false ∧
    (retrain_once envLaunchFail sWithMeta).2.1.meta = sWithMeta.meta ∧
    (retrain_once envLaunchFail sWithMeta).2.1.versions = sWithMeta.versions ∧
    (retrain_once envLaunchFail sWithMeta).2.1.latest = sWithMeta.latest :=
  ⟨rfl,
   (training_failure_leaves_state envLaunchFail sWithMeta rfl rfl).1,
   (training_failure_leaves_state envLaunchFail sWithMeta rfl rfl).2.1,
   (training_failure_leaves_state envLaunchFail sWithMeta rfl rfl).2.2.1,
   (training_failure_leaves_state envLaunchFail sWithMeta rfl rfl).2.2.2⟩

/-- C9: writing a fingerprint-form marker through the atomic path and
reading it back yields exactly the original string. -/
theorem write_then_read_roundtrip (md5 : String) (rm : Bool) (s : MetaFS)
    (h : isFingerprint md5 = true) :
    (write_meta_atomic WFail.success rm md5 s).1 = Except.ok () ∧
    read_meta false (write_meta_atomic WFail.success rm md5 s).2.meta =
      Except.ok (some md5) := by
  refine ⟨rfl, ?_⟩
  show read_meta false (some md5) = Except.ok (some md5)
  simp [read_meta, py_strip_fingerprint md5 h]

/-- C9 (witness): the round trip at the fingerprint `"abc123"` over a
pre-existing marker. -/
theorem write_then_read_roundtrip_witness :
    isFingerprint "abc123" = true ∧
    (write_meta_atomic WFail.success true "abc123" ⟨some "old", none⟩).1 =
      Except.ok () ∧
    read_meta false
      (write_meta_atomic WFail.success true "abc123"
        ⟨some "old", none⟩).2.meta =
      Except.ok (some "abc123") :=
  ⟨by decide,
   (write_then_read_roundtrip "abc123" true ⟨some "old", none⟩ (by decide)).1,
   (write_then_read_roundtrip "abc123" true ⟨some "old", none⟩ (by decide)).2⟩

/-- C10: the forced single run writes the sentinel `"__FORCE__"` as the
marker before the cycle (it is the first effect in the trace); if the
forced cycle then fails, the marker afterward still contains the sentinel
(the previous fingerprint is lost), and the next unforced cycle over the
unchanged dataset goes down the training branch and retrains. -/
theorem forced_run_failure_leaves_sentinel (env env2 : Env) (s : FS)
    (c a : List Nat) (out err : String)
    (hlock : s.lock = false) (hfw : env.forceWriteFail = WFail.success)
    (hds : s.dataset = some c)
    (hfail : (main_once true env s).1 = Except.ok false)
    (h5 : env2.md5Fails = false) (hr : env2.metaReadFails = false)
    (ht : env2.training = TrainResult.completed 0 out err (some a)) :
    (main_once true env s).2.1.meta = some "__FORCE__" ∧
    (main_once true env s).2.1.dataset = some c ∧
    (main_once true env s).2.2.head? = some (Event.writeMeta "__FORCE__") ∧
    (retrain_once env2 (main_once true env s).2.1).1 = Except.ok true := by
  have hm := main_once_forced_eq env s hlock hfw
  rw [hm] at hfail ⊢
  dsimp only at hfail ⊢
  have hfr := retrain_once_notrue_frame env
    { s with lock := true, meta := some "__FORCE__", tmpFile := none }
    (by rw [hfail]; simp)
  have hmeta : (release_lock (retrain_once env
      { s with lock := true, meta := some "__FORCE__", tmpFile := none }).2.1).meta
      = some "__FORCE__" := by
    dsimp [release_lock]
    rw [hfr.1]
  have hdat : (release_lock (retrain_once env
      { s with lock := true, meta := some "__FORCE__", tmpFile := none }).2.1).dataset
      = some c := by
    dsimp [release_lock]
    rw [hfr.2.2.2.1]
    exact hds
  have hch : Option.map py_strip (release_lock (retrain_once env
      { s with lock := true, meta := some "__FORCE__", tmpFile := none }).2.1).meta
      ≠ some (file_md5 c) := by
    rw [hmeta]
    intro hcon
    simp only [Option.map, Option.some.injEq] at hcon
    rw [show py_strip "__FORCE__" = "__FORCE__" by decide] at hcon
    exact file_md5_ne_force c hcon.symm
  refine ⟨hmeta, hdat, rfl, ?_⟩
  rw [retrain_once_completed_run env2 _ c a out err hdat h5 hr hch ht]

/-- C10 (witness): a concrete forced run whose cycle fails at training
launch, followed by a successful unforced cycle on the unchanged dataset. -/
theorem forced_run_failure_leaves_sentinel_witness :
    (main_once true envLaunchFail sWithMeta).1 = Except.ok false ∧
    (main_once true envLaunchFail sWithMeta).2.1.meta = some "__FORCE__" ∧
    (main_once true envLaunchFail sWithMeta).2.1.dataset = some [1, 2, 3] ∧
    (main_once true envLaunchFail sWithMeta).2.2.head? =
      some (Event.writeMeta "__FORCE__") ∧
    (retrain_once envTrainsOk (main_once true envLaunchFail sWithMeta).2.1).1 =
      Except.ok true :=
  ⟨by rfl,
   forced_run_failure_leaves_sentinel envLaunchFail envTrainsOk sWithMeta
     [1, 2, 3] [9] "" "" rfl rfl rfl (by rfl) rfl rfl rfl⟩

end Retrain
